import Mathlib

/-!
Verification of the dataset-splitting subsystem (`ludwig/data/split.py`).

The Python module is shallowly embedded: dataframes are lists of
(index label, row) pairs with a column-name list; Python cell values are the
inductive `PVal`; fallible Python code returns `Except String`; statements
that mutate the caller's dataframe (`df[col] = series`) are modelled by
state passing, with each `split` returning the caller's dataframe state
after the call alongside the result.  External collaborators
(`ludwig.utils.data_utils.split_dataset_ttv`, the registry, the dataframe
engine primitives) are not part of the given source; the first is modelled
from the spec (marked below), the engine primitives are abstract parameters
bundled in `Backend`.
-/

/-- A Python value as it can appear in a split column: an int, a string, a
date-component vector (list of ints, as produced by upstream preprocessing),
or None. -/
inductive PVal where
  | pint (n : Int)
  | pstr (s : String)
  | plist (l : List Int)
  | pnone
deriving DecidableEq, Repr

/-- Python `isinstance(x, list)`. -/
def PVal.isList : PVal → Bool
  | .plist _ => true
  | _ => false

/-- Python `len(x)`: defined for lists and strings, a `TypeError` otherwise. -/
def pyLen : PVal → Except String Nat
  | .plist l => .ok l.length
  | .pstr s => .ok s.length
  | .pint _ => .error "TypeError: object of type int has no len()"
  | .pnone => .error "TypeError: object of type NoneType has no len()"

/-- Python `x[i]` for a non-negative index: list indexing yields the element,
string indexing yields a one-character string, and out-of-range indices or
non-subscriptable values raise. -/
def pyGetItem (x : PVal) (i : Nat) : Except String PVal :=
  match x with
  | .plist l =>
    if h : i < l.length then .ok (.pint (l.get ⟨i, h⟩))
    else .error "IndexError: list index out of range"
  | .pstr s =>
    if h : i < s.toList.length then .ok (.pstr (String.mk [s.toList.get ⟨i, h⟩]))
    else .error "IndexError: string index out of range"
  | .pint _ => .error "TypeError: int object is not subscriptable"
  | .pnone => .error "TypeError: NoneType object is not subscriptable"

/-- Python `str(x)` as used inside the f-string of `list_to_date_str`
(only ints and strings are reachable there as components). -/
def pyStr : PVal → String
  | .pint n => toString n
  | .pstr s => s
  | .plist l => toString l
  | .pnone => "None"

/-- `list_to_date_str` from `DatetimeSplitter.split` (src/ludwig/data/split.py,
lines 159-162):

    def list_to_date_str(x):
        if not isinstance(x, list) and len(x) != 9:
            return x
        return f"{x[0]}-{x[1]}-{x[2]} {x[5]}:{x[6]}:{x[7]}"

Note the short-circuit: for a list the `and` makes the condition False
without evaluating `len(x)`; for a non-list, `len(x)` is evaluated (raising
`TypeError` on unsized values) and the value is returned unchanged only when
its length differs from 9. -/
def list_to_date_str (x : PVal) : Except String PVal := do
  let skip ←
    if x.isList then pure false
    else do
      let n ← pyLen x
      pure (decide (n ≠ 9))
  if skip then
    pure x
  else do
    let a ← pyGetItem x 0
    let b ← pyGetItem x 1
    let c ← pyGetItem x 2
    let d ← pyGetItem x 5
    let e ← pyGetItem x 6
    let f ← pyGetItem x 7
    pure (.pstr (pyStr a ++ "-" ++ pyStr b ++ "-" ++ pyStr c ++ " "
      ++ pyStr d ++ ":" ++ pyStr e ++ ":" ++ pyStr f))

/-- A dataframe row: an association list from column name to cell value. -/
abbrev Row := List (String × PVal)

/-- A pandas dataframe: the column names plus the rows, each row paired with
its index label (pandas index).  A freshly constructed frame has index
`0, 1, ..., n-1` (RangeIndex); filtering rows keeps the original labels. -/
structure DataFrame where
  columns : List String
  rows : List (Nat × Row)
deriving DecidableEq, Repr

/-- Cell access with pandas NaN/None for a missing cell (only used on
columns that exist). -/
def valAt (r : Row) (c : String) : PVal := (r.lookup c).getD .pnone

/-- Overwrite column `c` of a row with value `v` (append it if absent), as
column assignment does cell-wise. -/
def setCell (r : Row) (c : String) (v : PVal) : Row :=
  if (r.lookup c).isSome then r.map (fun kv => if kv.1 = c then (c, v) else kv)
  else r ++ [(c, v)]

/-- `df[c] = series`: positional column assignment.  Mutates the dataframe it
is applied to; callers that model Python statements pass the returned frame
on as the new state of the same object. -/
def DataFrame.setCol (df : DataFrame) (c : String) (vs : List PVal) : DataFrame :=
  ⟨if c ∈ df.columns then df.columns else df.columns ++ [c],
   List.zipWith (fun r v => (r.1, setCell r.2 c v)) df.rows vs⟩

/-- `df.drop(columns=c)`: returns a copy without column `c`. -/
def DataFrame.dropCol (df : DataFrame) (c : String) : DataFrame :=
  ⟨df.columns.filter (fun x => decide (¬(x = c))),
   df.rows.map (fun r => (r.1, r.2.filter (fun kv => decide (¬(kv.1 = c)))))⟩

/-- `df[c]` as an expression: the column values in row order, or a
`KeyError` when the column does not exist. -/
def DataFrame.getColE (df : DataFrame) (c : String) : Except String (List PVal) :=
  if c ∈ df.columns then .ok (df.rows.map (fun r => valAt r.2 c))
  else .error ("KeyError: " ++ c)

/-- `len(df)`. -/
def DataFrame.len (df : DataFrame) : Nat := df.rows.length

/-- `TMP_SPLIT_COL` (src/ludwig/data/split.py, line 34). -/
def TMP_SPLIT_COL : String := "__SPLIT__"

/-- `SPLIT` from `ludwig.constants` (not in src/): the reserved fixed-split
column name, `"split"` per the spec. -/
def SPLIT : String := "split"

/-- `DEFAULT_PROBABILITIES = (0.7, 0.1, 0.2)` (line 35), as exact rationals. -/
structure Probs where
  p0 : ℚ
  p1 : ℚ
  p2 : ℚ
deriving DecidableEq, Repr

/-- `probabilities[i]` for `i` in 0..2. -/
def Probs.get (p : Probs) : Fin 3 → ℚ
  | 0 => p.p0
  | 1 => p.p1
  | 2 => p.p2

def DEFAULT_PROBABILITIES : Probs := ⟨7/10, 1/10, 2/10⟩

/-- The four concrete `Splitter` variants with the attributes their
`__init__` methods store. -/
inductive Splitter where
  | random (probabilities : Probs)
  | fixed (column : String)
  | stratify (column : String) (probabilities : Probs)
  | datetime (column : String) (probabilities : Probs)
      (datetime_format : Option String) (fill_value : String)
deriving DecidableEq, Repr

/-- `has_split` (lines 48-49, 75-76, 131-132, 189-190): the base class
returns `True`; `RandomSplitter`, `StratifySplitter` and `DatetimeSplitter`
override it with `probabilities[split_index] > 0`; `FixedSplitter` does not
override it and inherits the base implementation. -/
def Splitter.has_split : Splitter → Fin 3 → Bool
  | .fixed _, _ => true
  | .random p, i => decide (0 < p.get i)
  | .stratify _ p, i => decide (0 < p.get i)
  | .datetime _ p _ _, i => decide (0 < p.get i)

/-- The `probabilities` attribute of a splitter, when its constructor sets
one (`FixedSplitter` stores none). -/
def Splitter.probabilitiesOf : Splitter → Option Probs
  | .random p => some p
  | .stratify _ p => some p
  | .datetime _ p _ _ => some p
  | .fixed _ => none

/-- The backend / dataframe-engine capabilities the splitters consume
(spec section 6 external interfaces): the partitioned flag, the seeded
full-fraction shuffle behind `df.sample(frac=1, random_state=seed)`, the
partitioned engine's native `random_split` and proportion `split`
primitives, the categorical draw stream behind
`array_lib.random.choice(3, _, p=probabilities)` (`choice k` is the k-th
draw of the seeded generator), and `db_lib.to_datetime(...).astype("int64")`
as an abstract timestamp parse. -/
structure Backend where
  partitioned : Bool
  shuffle : List (Nat × Row) → List (Nat × Row)
  nativeRandomSplit : DataFrame → DataFrame × DataFrame × DataFrame
  nativeSplit : DataFrame → Probs → DataFrame × DataFrame × DataFrame
  choice : Nat → Nat
  toDatetime : PVal → Int

/-- Modelled from the spec: `split_dataset_ttv` from
`ludwig.utils.data_utils` is not part of src/; per the spec, "output fold i
contains exactly the rows where column == i, in original order"
(spec sections 4.3 and 8).  Empty folds are returned as empty dataframes
(spec section 3 allows "None or empty"), so the `is not None` guard in
`_split_on_series` always takes its first branch here. -/
def split_dataset_ttv (df : DataFrame) (c : String) :
    DataFrame × DataFrame × DataFrame :=
  (⟨df.columns, df.rows.filter (fun r => decide (valAt r.2 c = .pint 0))⟩,
   ⟨df.columns, df.rows.filter (fun r => decide (valAt r.2 c = .pint 1))⟩,
   ⟨df.columns, df.rows.filter (fun r => decide (valAt r.2 c = .pint 2))⟩)

/-- `_split_on_series` (lines 219-222).  `df[TMP_SPLIT_COL] = series`
mutates the caller's dataframe; the first component of the result is the
caller's dataframe state after the call.  The temporary column is dropped
from each of the three returned folds (producing copies) but never from the
caller's dataframe. -/
def split_on_series (df : DataFrame) (series : List PVal) :
    DataFrame × (DataFrame × DataFrame × DataFrame) :=
  let df1 := df.setCol TMP_SPLIT_COL series
  let dfs := split_dataset_ttv df1 TMP_SPLIT_COL
  (df1, (dfs.1.dropCol TMP_SPLIT_COL, dfs.2.1.dropCol TMP_SPLIT_COL,
    dfs.2.2.dropCol TMP_SPLIT_COL))

/-- The cut points of `RandomSplitter.split` (lines 71-72):
`d1 = int(probabilities[0] * n)`, `d2 = d1 + int(probabilities[1] * n)`.
Python `int()` truncates toward zero, which is `Int.floor` for the
non-negative probabilities the configuration admits. -/
def randomSplitCuts (p : Probs) (n : Nat) : Nat × Nat :=
  let d1 := (Int.floor (p.p0 * n)).toNat
  (d1, d1 + (Int.floor (p.p1 * n)).toNat)

/-- `np.split(shuffled, [d1, d2])`: the slices `[0,d1)`, `[d1,d2)`,
`[d2,n)` of the rows, with the columns carried over. -/
def npSplit3 (df : DataFrame) (d1 d2 : Nat) :
    DataFrame × DataFrame × DataFrame :=
  (⟨df.columns, df.rows.take d1⟩,
   ⟨df.columns, (df.rows.drop d1).take (d2 - d1)⟩,
   ⟨df.columns, df.rows.drop d2⟩)

/-- `RandomSplitter.split` (lines 61-73): on a partitioned backend delegate
to the native `random_split`; otherwise shuffle all rows and slice at the
cut points.  No column is added to the caller's dataframe, so the caller's
state is returned unchanged. -/
def Splitter.splitRandom (p : Probs) (b : Backend) (df : DataFrame) :
    DataFrame × Except String (DataFrame × DataFrame × DataFrame) :=
  if b.partitioned then (df, .ok (b.nativeRandomSplit df))
  else
    let n := df.len
    let cuts := randomSplitCuts p n
    (df, .ok (npSplit3 ⟨df.columns, b.shuffle df.rows⟩ cuts.1 cuts.2))

/-- `FixedSplitter.split` (lines 84-87): `_split_on_series(df, df[column])`.
A missing column raises `KeyError` before any mutation. -/
def Splitter.splitFixed (column : String) (df : DataFrame) :
    DataFrame × Except String (DataFrame × DataFrame × DataFrame) :=
  match df.getColE column with
  | .error e => (df, .error e)
  | .ok series =>
    let r := split_on_series df series
    (r.1, .ok r.2)

/-- Order-preserving first-occurrence deduplication with an accumulator of
already-seen values: the model of pandas `Series.unique()` used on line 109. -/
def uniqueAux {α : Type} [DecidableEq α] : List α → List α → List α
  | [], _ => []
  | a :: t, seen =>
    if a ∈ seen then uniqueAux t seen else a :: uniqueAux t (seen ++ [a])

/-- pandas `Series.unique()`: distinct values in order of first appearance. -/
def uniqueFirst {α : Type} [DecidableEq α] (l : List α) : List α := uniqueAux l []

/-- `df.index[df[column] == val].tolist()` (line 110) over the
(index label, column value) pairs: the labels of the rows holding `val`. -/
def groupIdx (pairs : List (Nat × PVal)) (v : PVal) : List Nat :=
  (pairs.filter (fun q => decide (q.2 = v))).map Prod.fst

/-- Pair each index label of one value group with its drawn fold:
`val_list = array_lib.random.choice(3, len(idx_list), p=probabilities)`
(lines 112-116), the k-th row of the group receiving the draw at stream
position `off + k` of the seeded generator. -/
def zipDraws (g : Nat → Nat) : List Nat → Nat → List (Nat × Nat)
  | [], _ => []
  | i :: is, off => (i, g off) :: zipDraws g is (off + 1)

/-- The loop body writes of `StratifySplitter.split` (lines 109-117) for the
remaining distinct values, with `off` draws of the generator already
consumed: for the group of each value, one `(index label, drawn fold)` pair
per row of the group, the draws taken sequentially from the stream `g`. -/
def buildWritesGo (pairs : List (Nat × PVal)) (g : Nat → Nat) :
    List PVal → Nat → List (Nat × Nat)
  | [], _ => []
  | v :: vs, off =>
    zipDraws g (groupIdx pairs v) off
      ++ buildWritesGo pairs g vs (off + (groupIdx pairs v).length)

/-- All `(index label, drawn fold)` assignments the stratify loop performs,
in loop order. -/
def buildWrites (pairs : List (Nat × PVal)) (g : Nat → Nat) : List (Nat × Nat) :=
  buildWritesGo pairs g (uniqueFirst (pairs.map Prod.snd)) 0

/-- numpy fancy-index assignment `split[idx_list] = val_list` against the
length-`n` zeros array: each position written in turn, raising `IndexError`
at the first out-of-bounds label. -/
def npWrite (a : Array Nat) : List (Nat × Nat) → Except String (Array Nat)
  | [] => .ok a
  | iv :: ws =>
    if h : iv.1 < a.size then npWrite (a.set ⟨iv.1, h⟩ iv.2) ws
    else .error "IndexError: index out of bounds"

/-- `StratifySplitter.split` (lines 100-118): raise at once on a partitioned
backend; otherwise draw a fold per row grouped by distinct column value,
write the draws into a zeros array at the rows' index labels, and split on
the resulting series. -/
def Splitter.splitStratify (column : String) (b : Backend) (df : DataFrame) :
    DataFrame × Except String (DataFrame × DataFrame × DataFrame) :=
  if b.partitioned then
    (df, .error "ValueError: Split type \"stratify\" is not supported with a partitioned dataset.")
  else
    match df.getColE column with
    | .error e => (df, .error e)
    | .ok series =>
      let pairs := (df.rows.map Prod.fst).zip series
      match npWrite (Array.mkArray df.len 0) (buildWrites pairs b.choice) with
      | .error e => (df, .error e)
      | .ok arr =>
        let r := split_on_series df (arr.toList.map (fun k => PVal.pint (Int.ofNat k)))
        (r.1, .ok r.2)

/-- Stable ascending sort of the rows by the int64 timestamp held in the
temporary column: `df.sort_values(TMP_SPLIT_COL)` (line 171). -/
def DataFrame.sortByIntCol (df : DataFrame) (c : String) : DataFrame :=
  ⟨df.columns,
   df.rows.mergeSort (fun r1 r2 =>
     match valAt r1.2 c, valAt r2.2 c with
     | .pint n1, .pint n2 => decide (n1 ≤ n2)
     | _, _ => true)⟩

/-- Modelled from the spec: the non-partitioned `backend.df_engine.split`
used on line 176 lives in `ludwig/data/dataframe/pandas.py`, which is not in
src/; per the spec it "splits by exact row position using the same
proportion-to-cutpoint arithmetic as RandomSplitter, but without shuffling"
(spec section 4.5). -/
def engineSplitLocal (df : DataFrame) (p : Probs) :
    DataFrame × DataFrame × DataFrame :=
  let cuts := randomSplitCuts p df.len
  npSplit3 df cuts.1 cuts.2

/-- The value of an attribute of a `DatetimeSplitter` instance, as Python
attribute lookup sees it: `__init__` (lines 141-152) sets exactly `column`,
`probabilities`, `datetime_format` and `fill_value`; every other name is an
`AttributeError`. -/
inductive AttrVal where
  | str (s : String)
  | probs (p : Probs)
  | optStr (o : Option String)
deriving DecidableEq, Repr

/-- The attribute dictionary of a constructed `DatetimeSplitter`. -/
def datetimeAttrs (column : String) (p : Probs) (fmt : Option String)
    (fill : String) : List (String × AttrVal) :=
  [("column", .str column), ("probabilities", .probs p),
   ("datetime_format", .optStr fmt), ("fill_value", .str fill)]

/-- `DatetimeSplitter.split` (lines 154-176).  Line 164 reads `df[self.col]`;
the instance has no attribute `col` (its `__init__` sets `column`), so the
lookup is where the call hits Python attribute resolution.  Were the
attribute present and a string naming a column, the pipeline would
normalize with `list_to_date_str`, parse to int64 timestamps, sort
ascending, drop the scratch column and split by the engine primitive; the
caller's dataframe retains the temporary column it was mutated with. -/
def Splitter.splitDatetime (column : String) (p : Probs) (fmt : Option String)
    (fill : String) (b : Backend) (df : DataFrame) :
    DataFrame × Except String (DataFrame × DataFrame × DataFrame) :=
  match (datetimeAttrs column p fmt fill).lookup "col" with
  | none => (df, .error "AttributeError: DatetimeSplitter object has no attribute col")
  | some (.str c) =>
    match df.getColE c with
    | .error e => (df, .error e)
    | .ok series =>
      match series.mapM list_to_date_str with
      | .error e => (df, .error e)
      | .ok strs =>
        let df1 := df.setCol TMP_SPLIT_COL strs
        let stamps := strs.map (fun v => PVal.pint (b.toDatetime v))
        let df2 := df1.setCol TMP_SPLIT_COL stamps
        let sorted := (df2.sortByIntCol TMP_SPLIT_COL).dropCol TMP_SPLIT_COL
        (df2, .ok (if b.partitioned then b.nativeSplit sorted p
                   else engineSplitLocal sorted p))
  | some _ => (df, .error "TypeError: unhashable or non-string column key")

/-- Dispatch of `splitter.split(df, backend, random_seed)` over the four
variants.  The first component is the caller's dataframe state after the
call (Python mutates the argument in place). -/
def Splitter.split (s : Splitter) (b : Backend) (df : DataFrame) :
    DataFrame × Except String (DataFrame × DataFrame × DataFrame) :=
  match s with
  | .random p => Splitter.splitRandom p b df
  | .fixed c => Splitter.splitFixed c df
  | .stratify c _ => Splitter.splitStratify c b df
  | .datetime c p fmt fill => Splitter.splitDatetime c p fmt fill b df

/-- The keyword arguments that reach `get_splitter` from
`global_preprocessing_parameters["split"]`: the `type` tag plus the
variant-specific constructor keywords. -/
structure Kwargs where
  type : Option String := none
  column : Option String := none
  probabilities : Option Probs := none
  datetime_format : Option String := none
  fill_value : Option String := none
deriving DecidableEq, Repr

/-- `RandomSplitter.__init__` (lines 57-59). -/
def RandomSplitter.ctor (kw : Kwargs) : Except String Splitter :=
  .ok (.random (kw.probabilities.getD DEFAULT_PROBABILITIES))

/-- `FixedSplitter.__init__` (lines 80-82): the column defaults to `SPLIT`. -/
def FixedSplitter.ctor (kw : Kwargs) : Except String Splitter :=
  .ok (.fixed (kw.column.getD SPLIT))

/-- `StratifySplitter.__init__` (lines 95-98): `column` is a required
argument, so constructing without it raises `TypeError`. -/
def StratifySplitter.ctor (kw : Kwargs) : Except String Splitter :=
  match kw.column with
  | some c => .ok (.stratify c (kw.probabilities.getD DEFAULT_PROBABILITIES))
  | none => .error "TypeError: StratifySplitter missing required argument column"

/-- `DatetimeSplitter.__init__` (lines 140-152): `column` is required,
`fill_value` defaults to the empty string. -/
def DatetimeSplitter.ctor (kw : Kwargs) : Except String Splitter :=
  match kw.column with
  | some c => .ok (.datetime c (kw.probabilities.getD DEFAULT_PROBABILITIES)
      kw.datetime_format (kw.fill_value.getD ""))
  | none => .error "TypeError: DatetimeSplitter missing required argument column"

/-- Modelled from the spec: `split_registry` is a `ludwig.utils.registry.Registry`
(not in src/).  Per the spec it is a name-to-constructor table holding the
four variants keyed "random" (marked default), "fixed", "stratify" and
"datetime"; absence of a type name resolves to the default-marked variant,
and looking up an unregistered name yields nothing (matching the
`splitter_cls is None` check of `get_splitter` in src). -/
def split_registry_get : Option String → Option (Kwargs → Except String Splitter)
  | none => some RandomSplitter.ctor
  | some "random" => some RandomSplitter.ctor
  | some "fixed" => some FixedSplitter.ctor
  | some "stratify" => some StratifySplitter.ctor
  | some "datetime" => some DatetimeSplitter.ctor
  | some _ => none

/-- What a call to `get_splitter` produces: a constructed splitter returned
normally, a `ValueError` instance returned as an ordinary value (not
raised), or an exception raised during construction. -/
inductive GetSplitterResult where
  | returned (s : Splitter)
  | returnedErrorValue (msg : String)
  | raised (msg : String)
deriving DecidableEq, Repr

/-- `get_splitter` (lines 197-201).  When the registry lookup yields no
class, line 200 executes `return ValueError(...)`: the error object is
returned as a value, not raised.  Otherwise the constructor is invoked with
the keyword arguments. -/
def get_splitter (kw : Kwargs) : GetSplitterResult :=
  match split_registry_get kw.type with
  | none => .returnedErrorValue ("Invalid split type: " ++ kw.type.getD "None")
  | some ctor =>
    match ctor kw with
    | .ok s => .returned s
    | .error m => .raised m

/-- The global preprocessing parameters dict as `split_dataset` reads it:
only the presence and content of the `"split"` key matter. -/
structure GlobalPreprocessingParameters where
  split : Option Kwargs := none
deriving DecidableEq, Repr

/-- `split_dataset` (lines 204-216).  Emits the ambiguous-configuration
warning when there is no `"split"` key but the dataframe has a column named
`SPLIT`, then resolves the splitter from `params.get("split", {})` and
invokes it.  The first component records whether the warning was emitted.
When `get_splitter` returns the `ValueError` instance, the subsequent
`splitter.split(...)` attribute access on it raises. -/
def split_dataset (df : DataFrame) (gpp : GlobalPreprocessingParameters)
    (b : Backend) :
    Bool × (DataFrame × Except String (DataFrame × DataFrame × DataFrame)) :=
  let warned := gpp.split.isNone && decide (SPLIT ∈ df.columns)
  match get_splitter (gpp.split.getD {}) with
  | .returned s => (warned, s.split b df)
  | .returnedErrorValue _ =>
    (warned, (df, .error "AttributeError: ValueError object has no attribute split"))
  | .raised m => (warned, (df, .error m))

/-- A concrete backend used to instantiate witnesses: non-partitioned,
identity shuffle, trivial native primitives, the constant-zero draw stream
and a zero timestamp parse. -/
def trivialBackend : Backend :=
  ⟨false, id, fun df => (df, df, df), fun df _ => (df, df, df), fun _ => 0, fun _ => 0⟩

/-- A partitioned variant of the trivial backend. -/
def partitionedBackend : Backend := { trivialBackend with partitioned := true }

/-- A two-row dataframe with a fixed-split column and a payload column,
index labels 0 and 1. -/
def dfAB : DataFrame :=
  ⟨["split", "A"],
   [(0, [("split", .pint 0), ("A", .pint 5)]),
    (1, [("split", .pint 2), ("A", .pint 7)])]⟩

/-- C1: for every unknown splitter type name, `get_splitter` does not raise;
it returns the `ValueError` instance as an ordinary value in place of a
constructed `Splitter` (line 200 reads `return ValueError(...)`, not
`raise`).  This refutes the claim as stated and exhibits the sentinel. -/
theorem get_splitter_unknown_type_returns_value_error
    (name : String) (kw : Kwargs)
    (hname : split_registry_get (some name) = none)
    (hty : kw.type = some name) :
    get_splitter kw = .returnedErrorValue ("Invalid split type: " ++ name) := by
  simp [get_splitter, hty, hname]

theorem get_splitter_unknown_type_returns_value_error_witness :
    split_registry_get (some "foo") = none ∧
    ({ type := some "foo" : Kwargs }).type = some "foo" ∧
    get_splitter { type := some "foo" } =
      .returnedErrorValue ("Invalid split type: " ++ "foo") :=
  ⟨rfl, rfl, get_splitter_unknown_type_returns_value_error "foo" _ rfl rfl⟩

/-- C2: `DatetimeSplitter.split` never reaches its sort-and-split logic: its
first statement reads `df[self.col]` (line 164) and the instance has no
attribute `col` (`__init__` sets `column`), so every invocation raises
`AttributeError` with the caller's dataframe untouched, for every backend
and dataset. -/
theorem datetime_split_attribute_error (c : String) (p : Probs)
    (fmt : Option String) (fill : String) (b : Backend) (df : DataFrame) :
    (Splitter.datetime c p fmt fill).split b df =
      (df, .error "AttributeError: DatetimeSplitter object has no attribute col") := rfl

/-- C6: behaviour of the `list_to_date_str` normalization.  A 9-element
component list is reconstructed as claimed (first conjunct), but because the
guard is `not isinstance(x, list) and len(x) != 9` instead of an `or`, a
non-list value of length 9 is reformatted character-wise rather than left
as-is (second conjunct), a value with no length raises `TypeError` (fourth
conjunct), and a component list of the wrong arity raises `IndexError`
(fifth conjunct); only non-list values of length other than 9 pass through
(third conjunct). -/
theorem list_to_date_str_behavior :
    list_to_date_str (.plist [2022, 6, 1, 152, 3, 12, 30, 5, 0])
        = .ok (.pstr "2022-6-1 12:30:5")
    ∧ list_to_date_str (.pstr "202206011") = .ok (.pstr "2-0-2 6:0:1")
    ∧ list_to_date_str (.pstr "2022-06-01 12:30:05")
        = .ok (.pstr "2022-06-01 12:30:05")
    ∧ list_to_date_str (.pint 1654052400)
        = .error "TypeError: object of type int has no len()"
    ∧ list_to_date_str (.plist [2022, 6, 1])
        = .error "IndexError: list index out of range" :=
  ⟨rfl, rfl, rfl, rfl, rfl⟩

/-- C7: requesting a stratified split on a partitioned backend fails
immediately: the result is an error naming the unsupported combination, the
caller's dataframe is returned unchanged, and the outcome is independent of
the draw stream and every other backend capability (so no RNG is consumed
and no fold assignment or mutation happens first). -/
theorem stratify_partitioned_raises (c : String) (p : Probs) (b : Backend)
    (df : DataFrame) (h : b.partitioned = true) :
    (Splitter.stratify c p).split b df =
      (df, .error "ValueError: Split type \"stratify\" is not supported with a partitioned dataset.") := by
  simp [Splitter.split, Splitter.splitStratify, h]

theorem stratify_partitioned_raises_witness :
    partitionedBackend.partitioned = true ∧
    (Splitter.stratify "A" DEFAULT_PROBABILITIES).split partitionedBackend dfAB =
      (dfAB, .error "ValueError: Split type \"stratify\" is not supported with a partitioned dataset.") :=
  ⟨rfl, stratify_partitioned_raises "A" DEFAULT_PROBABILITIES partitionedBackend dfAB rfl⟩

/-- C8: for every splitter variant that stores configured probabilities
(random, stratify, datetime), `has_split i` returns exactly
`probabilities[i] > 0` for each fold index `i`. -/
theorem has_split_agrees_with_probabilities (s : Splitter) (ps : Probs)
    (i : Fin 3) (h : s.probabilitiesOf = some ps) :
    s.has_split i = decide (0 < ps.get i) := by
  cases s <;> simp_all [Splitter.probabilitiesOf, Splitter.has_split]

theorem has_split_agrees_with_probabilities_witness :
    (Splitter.random DEFAULT_PROBABILITIES).probabilitiesOf
        = some DEFAULT_PROBABILITIES ∧
    (Splitter.random DEFAULT_PROBABILITIES).has_split 1
        = decide (0 < DEFAULT_PROBABILITIES.get 1) :=
  ⟨rfl, has_split_agrees_with_probabilities _ DEFAULT_PROBABILITIES 1 rfl⟩

lemma not_mem_filter_ne_self (l : List String) (c : String) :
    c ∉ l.filter (fun x => decide (¬(x = c))) := by
  intro hmem
  rcases List.mem_filter.mp hmem with ⟨-, hdec⟩
  simp at hdec

lemma lookup_filter_ne (r : Row) (c : String) :
    (r.filter (fun kv => decide (¬(kv.1 = c)))).lookup c = none := by
  induction r with
  | nil => rfl
  | cons kv t ih =>
    by_cases hk : kv.1 = c
    · simpa [List.filter, hk] using ih
    · have hbeq : (c == kv.1) = false := beq_eq_false_iff_ne.mpr (Ne.symm hk)
      rw [List.filter_cons_of_pos (by simpa using hk)]
      simp only [List.lookup, hbeq]
      exact ih

/-- C3 counterexample: on a concrete two-row dataframe, `FixedSplitter.split`
leaves the temporary `__SPLIT__` column on the caller's dataframe after
returning — the claimed removal of the scratch column from the caller's
object does not happen. -/
theorem fixed_split_mutates_caller_cx :
    TMP_SPLIT_COL ∈ ((Splitter.fixed "split").split trivialBackend dfAB).1.columns
    ∧ TMP_SPLIT_COL ∉ dfAB.columns := by
  constructor
  · decide
  · decide

/-- C3 amended: `_split_on_series` removes the temporary split-label column
from each of the three returned datasets (their column lists and their rows
are free of it), but the caller's dataframe retains the scratch column it
was mutated with. -/
theorem split_on_series_folds_clean_caller_retains
    (df : DataFrame) (series : List PVal) (h : TMP_SPLIT_COL ∉ df.columns) :
    TMP_SPLIT_COL ∉ (split_on_series df series).2.1.columns
    ∧ TMP_SPLIT_COL ∉ (split_on_series df series).2.2.1.columns
    ∧ TMP_SPLIT_COL ∉ (split_on_series df series).2.2.2.columns
    ∧ (∀ r ∈ (split_on_series df series).2.1.rows, r.2.lookup TMP_SPLIT_COL = none)
    ∧ (∀ r ∈ (split_on_series df series).2.2.1.rows, r.2.lookup TMP_SPLIT_COL = none)
    ∧ (∀ r ∈ (split_on_series df series).2.2.2.rows, r.2.lookup TMP_SPLIT_COL = none)
    ∧ (split_on_series df series).1.columns = df.columns ++ [TMP_SPLIT_COL] := by
  refine ⟨not_mem_filter_ne_self _ _, not_mem_filter_ne_self _ _,
    not_mem_filter_ne_self _ _, ?_, ?_, ?_, ?_⟩
  · intro r hr
    simp only [split_on_series, split_dataset_ttv, DataFrame.dropCol,
      List.mem_map] at hr
    rcases hr with ⟨q, -, rfl⟩
    exact lookup_filter_ne _ _
  · intro r hr
    simp only [split_on_series, split_dataset_ttv, DataFrame.dropCol,
      List.mem_map] at hr
    rcases hr with ⟨q, -, rfl⟩
    exact lookup_filter_ne _ _
  · intro r hr
    simp only [split_on_series, split_dataset_ttv, DataFrame.dropCol,
      List.mem_map] at hr
    rcases hr with ⟨q, -, rfl⟩
    exact lookup_filter_ne _ _
  · simp [split_on_series, DataFrame.setCol, h]

theorem split_on_series_folds_clean_caller_retains_witness :
    TMP_SPLIT_COL ∉ dfAB.columns ∧
    (TMP_SPLIT_COL ∉ (split_on_series dfAB [.pint 0, .pint 1]).2.1.columns
    ∧ TMP_SPLIT_COL ∉ (split_on_series dfAB [.pint 0, .pint 1]).2.2.1.columns
    ∧ TMP_SPLIT_COL ∉ (split_on_series dfAB [.pint 0, .pint 1]).2.2.2.columns
    ∧ (∀ r ∈ (split_on_series dfAB [.pint 0, .pint 1]).2.1.rows,
        r.2.lookup TMP_SPLIT_COL = none)
    ∧ (∀ r ∈ (split_on_series dfAB [.pint 0, .pint 1]).2.2.1.rows,
        r.2.lookup TMP_SPLIT_COL = none)
    ∧ (∀ r ∈ (split_on_series dfAB [.pint 0, .pint 1]).2.2.2.rows,
        r.2.lookup TMP_SPLIT_COL = none)
    ∧ (split_on_series dfAB [.pint 0, .pint 1]).1.columns
        = dfAB.columns ++ [TMP_SPLIT_COL]) :=
  ⟨by decide, split_on_series_folds_clean_caller_retains dfAB _ (by decide)⟩

lemma floor_cut_le (q : ℚ) (n : Nat) (hq1 : q ≤ 1) :
    (Int.floor (q * n)).toNat ≤ n := by
  have hle : q * (n : ℚ) ≤ (n : ℚ) := by
    calc q * (n : ℚ) ≤ 1 * n := by
          exact mul_le_mul_of_nonneg_right hq1 (Nat.cast_nonneg n)
    _ = n := one_mul _
  have hfl : Int.floor (q * (n : ℚ)) ≤ (n : ℤ) := by
    have := Int.floor_le_floor hle
    simpa [Int.floor_natCast] using this
  exact Int.toNat_le.mpr hfl

/-- C4: on a non-partitioned backend, for probabilities `(p0,p1,p2)`
non-negative and summing to 1, `RandomSplitter.split` succeeds and the fold
lengths are `floor(p0*n)` for train, `floor(p1*n)` for validation, the
whole rounding remainder `n - (floor(p0*n) + floor(p1*n))` for test, and
they sum to `n`. -/
theorem random_split_fold_sizes (p : Probs) (b : Backend) (df : DataFrame)
    (hpart : b.partitioned = false)
    (hsh : ∀ l, List.Perm (b.shuffle l) l)
    (h0 : 0 ≤ p.p0) (h1 : 0 ≤ p.p1) (h2 : 0 ≤ p.p2)
    (hsum : p.p0 + p.p1 + p.p2 = 1) :
    ∃ folds, (Splitter.random p).split b df = (df, .ok folds)
      ∧ folds.1.len = (Int.floor (p.p0 * df.len)).toNat
      ∧ folds.2.1.len = (Int.floor (p.p1 * df.len)).toNat
      ∧ folds.2.2.len
          = df.len - ((Int.floor (p.p0 * df.len)).toNat
              + (Int.floor (p.p1 * df.len)).toNat)
      ∧ folds.1.len + folds.2.1.len + folds.2.2.len = df.len := by
  set n := df.len with hn
  set a1 := (Int.floor (p.p0 * (n : ℚ))).toNat with ha1
  set a2 := (Int.floor (p.p1 * (n : ℚ))).toNat with ha2
  have hsl : (b.shuffle df.rows).length = n := (hsh df.rows).length_eq
  have h01 : p.p0 ≤ 1 := by nlinarith
  have h11 : p.p1 ≤ 1 := by nlinarith
  have hle1 : a1 ≤ n := floor_cut_le p.p0 n h01
  have hf0 : (0 : ℤ) ≤ Int.floor (p.p0 * (n : ℚ)) :=
    Int.floor_nonneg.mpr (mul_nonneg h0 (Nat.cast_nonneg n))
  have hf1 : (0 : ℤ) ≤ Int.floor (p.p1 * (n : ℚ)) :=
    Int.floor_nonneg.mpr (mul_nonneg h1 (Nat.cast_nonneg n))
  have hsumfl : Int.floor (p.p0 * (n : ℚ)) + Int.floor (p.p1 * (n : ℚ)) ≤ (n : ℤ) := by
    have hstep : Int.floor (p.p0 * (n : ℚ)) + Int.floor (p.p1 * (n : ℚ))
        ≤ Int.floor (p.p0 * (n : ℚ) + p.p1 * (n : ℚ)) := by
      refine Int.le_floor.mpr ?_
      push_cast
      have := Int.floor_le (p.p0 * (n : ℚ))
      have := Int.floor_le (p.p1 * (n : ℚ))
      linarith
    have hmul : p.p0 * (n : ℚ) + p.p1 * (n : ℚ) ≤ (n : ℚ) := by
      have hp01 : p.p0 + p.p1 ≤ 1 := by linarith
      nlinarith [Nat.cast_nonneg (α := ℚ) n]
    have hend : Int.floor (p.p0 * (n : ℚ) + p.p1 * (n : ℚ)) ≤ (n : ℤ) := by
      have := Int.floor_le_floor hmul
      simpa [Int.floor_natCast] using this
    omega
  have hle2 : a1 + a2 ≤ n := by
    have := Int.toNat_add hf0 hf1
    have h' : (Int.floor (p.p0 * (n : ℚ)) + Int.floor (p.p1 * (n : ℚ))).toNat ≤ n :=
      Int.toNat_le.mpr hsumfl
    omega
  refine ⟨npSplit3 ⟨df.columns, b.shuffle df.rows⟩ a1 (a1 + a2), ?_, ?_, ?_, ?_, ?_⟩
  · simp only [Splitter.split, Splitter.splitRandom, hpart, Bool.false_eq_true,
      if_false, randomSplitCuts, ← hn, ← ha1, ← ha2]
  · simp only [DataFrame.len, npSplit3, List.length_take, hsl]
    omega
  · simp only [DataFrame.len, npSplit3, List.length_take, List.length_drop, hsl]
    omega
  · simp only [DataFrame.len, npSplit3, List.length_drop, hsl]
  · simp only [DataFrame.len, npSplit3, List.length_take, List.length_drop, hsl]
    omega

theorem random_split_fold_sizes_witness :
    trivialBackend.partitioned = false ∧
    (∃ folds,
      (Splitter.random DEFAULT_PROBABILITIES).split trivialBackend dfAB
          = (dfAB, .ok folds)
      ∧ folds.1.len = (Int.floor (DEFAULT_PROBABILITIES.p0 * dfAB.len)).toNat
      ∧ folds.2.1.len = (Int.floor (DEFAULT_PROBABILITIES.p1 * dfAB.len)).toNat
      ∧ folds.2.2.len
          = dfAB.len - ((Int.floor (DEFAULT_PROBABILITIES.p0 * dfAB.len)).toNat
              + (Int.floor (DEFAULT_PROBABILITIES.p1 * dfAB.len)).toNat)
      ∧ folds.1.len + folds.2.1.len + folds.2.2.len = dfAB.len) :=
  ⟨rfl,
   random_split_fold_sizes DEFAULT_PROBABILITIES trivialBackend dfAB rfl
    (fun l => List.Perm.refl l)
    (by norm_num [DEFAULT_PROBABILITIES])
    (by norm_num [DEFAULT_PROBABILITIES])
    (by norm_num [DEFAULT_PROBABILITIES])
    (by norm_num [DEFAULT_PROBABILITIES])⟩

/-- C9: `split_dataset` warns exactly when the preprocessing parameters have
no `"split"` key while the dataframe has a column named `SPLIT`, and in the
no-key case still resolves the default random splitter with the default
probabilities and returns its 3-way split of the dataset; with a `"split"`
key present no warning is emitted. -/
theorem split_dataset_warning_and_default (df : DataFrame)
    (gpp : GlobalPreprocessingParameters) (b : Backend) :
    (gpp.split = none →
      (split_dataset df gpp b).1 = decide (SPLIT ∈ df.columns)
      ∧ (split_dataset df gpp b).2
          = (Splitter.random DEFAULT_PROBABILITIES).split b df)
    ∧ (∀ kw, gpp.split = some kw → (split_dataset df gpp b).1 = false) := by
  constructor
  · intro hnone
    constructor
    · simp only [split_dataset, hnone]
      rfl
    · simp only [split_dataset, hnone]
      rfl
  · intro kw hkw
    simp only [split_dataset, hkw]
    cases h : get_splitter kw <;> simp [h]

theorem split_dataset_warning_and_default_witness :
    ({ split := none : GlobalPreprocessingParameters }).split = none ∧
    (split_dataset dfAB { split := none } trivialBackend).1
        = decide (SPLIT ∈ dfAB.columns) ∧
    (split_dataset dfAB { split := none } trivialBackend).2
        = (Splitter.random DEFAULT_PROBABILITIES).split trivialBackend dfAB ∧
    (split_dataset dfAB { split := none } trivialBackend).1 = true :=
  ⟨rfl,
   ((split_dataset_warning_and_default dfAB { split := none } trivialBackend).1 rfl).1,
   ((split_dataset_warning_and_default dfAB { split := none } trivialBackend).1 rfl).2,
   by decide⟩

lemma lookup_eq_none_of_keys_ne (r : Row) (c : String)
    (h : ∀ kv ∈ r, kv.1 ≠ c) : r.lookup c = none := by
  induction r with
  | nil => rfl
  | cons kv t ih =>
    have hk : kv.1 ≠ c := h kv (List.mem_cons_self _ _)
    have hbeq : (c == kv.1) = false := beq_eq_false_iff_ne.mpr (Ne.symm hk)
    simp only [List.lookup, hbeq]
    exact ih (fun kv2 h2 => h kv2 (List.mem_cons_of_mem _ h2))

lemma lookup_append_of_none {r l2 : Row} {c : String} (h : r.lookup c = none) :
    (r ++ l2).lookup c = l2.lookup c := by
  induction r with
  | nil => rfl
  | cons kv t ih =>
    cases hbeq : (c == kv.1) with
    | true =>
      simp only [List.lookup, hbeq] at h
      exact absurd h (Option.some_ne_none _)
    | false =>
      simp only [List.cons_append, List.lookup, hbeq] at h ⊢
      exact ih h

lemma setCell_absent (r : Row) (c : String) (v : PVal) (h : r.lookup c = none) :
    setCell r c v = r ++ [(c, v)] := by
  simp [setCell, h]

lemma valAt_setCell_absent (r : Row) (c : String) (v : PVal)
    (h : r.lookup c = none) : valAt (setCell r c v) c = v := by
  rw [setCell_absent r c v h]
  simp [valAt, lookup_append_of_none h, List.lookup]

lemma filter_ne_of_keys (r : Row) (c : String) (h : ∀ kv ∈ r, kv.1 ≠ c) :
    r.filter (fun kv => decide (¬(kv.1 = c))) = r := by
  refine List.filter_eq_self.mpr ?_
  intro kv hkv
  simp only [decide_eq_true_eq]
  exact h kv hkv

lemma dropRow_setCell_absent (r : Row) (c : String) (v : PVal)
    (hkeys : ∀ kv ∈ r, kv.1 ≠ c) :
    (setCell r c v).filter (fun kv => decide (¬(kv.1 = c))) = r := by
  rw [setCell_absent r c v (lookup_eq_none_of_keys_ne r c hkeys),
    List.filter_append, filter_ne_of_keys r c hkeys]
  simp

lemma fold_rows_aux (column : String) (i : Int) : ∀ (l : List (Nat × Row)),
    (∀ r ∈ l, ∀ kv ∈ r.2, kv.1 ≠ TMP_SPLIT_COL) →
    ((List.zipWith (fun r v => (r.1, setCell r.2 TMP_SPLIT_COL v)) l
        (l.map (fun r => valAt r.2 column))).filter
        (fun r => decide (valAt r.2 TMP_SPLIT_COL = .pint i))).map
      (fun r => (r.1, r.2.filter (fun kv => decide (¬(kv.1 = TMP_SPLIT_COL)))))
      = l.filter (fun r => decide (valAt r.2 column = .pint i))
  | [], _ => rfl
  | x :: t, h => by
    have hx : ∀ kv ∈ x.2, kv.1 ≠ TMP_SPLIT_COL :=
      fun kv hkv => h x (List.mem_cons_self _ _) kv hkv
    have hlookup : x.2.lookup TMP_SPLIT_COL = none :=
      lookup_eq_none_of_keys_ne _ _ hx
    have hvalv : ∀ v, valAt (setCell x.2 TMP_SPLIT_COL v) TMP_SPLIT_COL = v :=
      fun v => valAt_setCell_absent _ _ _ hlookup
    have hdrop : ∀ v, (setCell x.2 TMP_SPLIT_COL v).filter
        (fun kv => decide (¬(kv.1 = TMP_SPLIT_COL))) = x.2 :=
      fun v => dropRow_setCell_absent _ _ _ hx
    have ih := fold_rows_aux column i t
      (fun r hr => h r (List.mem_cons_of_mem _ hr))
    simp only [List.map_cons, List.zipWith_cons_cons]
    by_cases hcase : valAt x.2 column = .pint i
    · rw [List.filter_cons_of_pos (by simp [hvalv, hcase]),
        List.filter_cons_of_pos (by simp [hcase])]
      simp only [List.map_cons, hdrop, Prod.mk.eta, ih]
    · rw [List.filter_cons_of_neg (by simp [hvalv, hcase]),
        List.filter_cons_of_neg (by simp [hcase])]
      exact ih

lemma setCol_columns_absent (df : DataFrame) (c : String) (vs : List PVal)
    (h : c ∉ df.columns) : (df.setCol c vs).columns = df.columns ++ [c] := by
  simp [DataFrame.setCol, h]

lemma filter_ne_cols (l : List String) (c : String) (h : c ∉ l) :
    (l ++ [c]).filter (fun x => decide (¬(x = c))) = l := by
  have h1 : l.filter (fun x => decide (¬(x = c))) = l := by
    refine List.filter_eq_self.mpr ?_
    intro x hx
    simp only [decide_eq_true_eq]
    intro he
    exact h (he ▸ hx)
  rw [List.filter_append, h1]
  simp

lemma filter_three_perm {α : Type} (p q r : α → Bool) : ∀ (l : List α),
    (∀ x ∈ l, (p x = true ∧ q x = false ∧ r x = false)
      ∨ (p x = false ∧ q x = true ∧ r x = false)
      ∨ (p x = false ∧ q x = false ∧ r x = true)) →
    List.Perm (l.filter p ++ l.filter q ++ l.filter r) l
  | [], _ => by simp
  | x :: t, h => by
    have ih : List.Perm (t.filter p ++ (t.filter q ++ t.filter r)) t := by
      simpa only [List.append_assoc] using filter_three_perm p q r t
        (fun y hy => h y (List.mem_cons_of_mem _ hy))
    rcases h x (List.mem_cons_self _ _) with ⟨hp, hq, hr⟩ | ⟨hp, hq, hr⟩ | ⟨hp, hq, hr⟩
    · rw [List.filter_cons_of_pos (by simp [hp]),
        List.filter_cons_of_neg (by simp [hq]),
        List.filter_cons_of_neg (by simp [hr])]
      simp only [List.append_assoc, List.cons_append]
      exact ih.cons x
    · rw [List.filter_cons_of_neg (by simp [hp]),
        List.filter_cons_of_pos (by simp [hq]),
        List.filter_cons_of_neg (by simp [hr])]
      simp only [List.append_assoc, List.cons_append]
      exact List.perm_middle.trans (ih.cons x)
    · rw [List.filter_cons_of_neg (by simp [hp]),
        List.filter_cons_of_neg (by simp [hq]),
        List.filter_cons_of_pos (by simp [hr])]
      simp only [List.append_assoc, List.cons_append]
      exact (List.Perm.append_left (t.filter p) List.perm_middle).trans
        (List.perm_middle.trans (ih.cons x))

/-- C5: for a dataframe whose split column holds only values 0, 1 and 2 (and
which does not already use the reserved temporary column name),
`FixedSplitter.split` succeeds, fold `i` is exactly the sublist of rows whose
column equals `i` in original order with the original columns, and the three
folds concatenated are a permutation of the original rows (every row in
exactly one fold).  The caller's dataframe is left with the temporary column
appended (see the C3 analysis). -/
theorem fixed_split_partition_roundtrip (column : String) (df : DataFrame)
    (b : Backend)
    (hcol : column ∈ df.columns)
    (hcols : TMP_SPLIT_COL ∉ df.columns)
    (hrows : ∀ r ∈ df.rows, ∀ kv ∈ r.2, kv.1 ≠ TMP_SPLIT_COL)
    (hvals : ∀ r ∈ df.rows, valAt r.2 column = .pint 0
      ∨ valAt r.2 column = .pint 1 ∨ valAt r.2 column = .pint 2) :
    (Splitter.fixed column).split b df
      = (df.setCol TMP_SPLIT_COL (df.rows.map (fun r => valAt r.2 column)),
         .ok (⟨df.columns, df.rows.filter (fun r => decide (valAt r.2 column = .pint 0))⟩,
              ⟨df.columns, df.rows.filter (fun r => decide (valAt r.2 column = .pint 1))⟩,
              ⟨df.columns, df.rows.filter (fun r => decide (valAt r.2 column = .pint 2))⟩))
    ∧ List.Perm
        (df.rows.filter (fun r => decide (valAt r.2 column = .pint 0))
          ++ df.rows.filter (fun r => decide (valAt r.2 column = .pint 1))
          ++ df.rows.filter (fun r => decide (valAt r.2 column = .pint 2)))
        df.rows := by
  constructor
  · have hcolsEq : ((df.setCol TMP_SPLIT_COL
        (df.rows.map (fun r => valAt r.2 column))).columns.filter
        (fun x => decide (¬(x = TMP_SPLIT_COL)))) = df.columns := by
      rw [setCol_columns_absent _ _ _ hcols]
      exact filter_ne_cols _ _ hcols
    have hrowsEq : ∀ i : Int,
        (((df.setCol TMP_SPLIT_COL
            (df.rows.map (fun r => valAt r.2 column))).rows.filter
            (fun r => decide (valAt r.2 TMP_SPLIT_COL = .pint i))).map
          (fun r => (r.1, r.2.filter (fun kv => decide (¬(kv.1 = TMP_SPLIT_COL))))))
          = df.rows.filter (fun r => decide (valAt r.2 column = .pint i)) := by
      intro i
      simpa only [DataFrame.setCol] using fold_rows_aux column i df.rows hrows
    simp only [Splitter.split, Splitter.splitFixed, DataFrame.getColE,
      if_pos hcol, split_on_series, split_dataset_ttv, DataFrame.dropCol,
      Prod.mk.injEq, Except.ok.injEq, DataFrame.mk.injEq]
    exact ⟨trivial, ⟨hcolsEq, hrowsEq 0⟩, ⟨hcolsEq, hrowsEq 1⟩, hcolsEq, hrowsEq 2⟩
  · refine filter_three_perm _ _ _ df.rows ?_
    intro x hx
    rcases hvals x hx with h0 | h1 | h2
    · exact Or.inl ⟨by simp [h0], by simp [h0], by simp [h0]⟩
    · exact Or.inr (Or.inl ⟨by simp [h1], by simp [h1], by simp [h1]⟩)
    · exact Or.inr (Or.inr ⟨by simp [h2], by simp [h2], by simp [h2]⟩)

theorem fixed_split_partition_roundtrip_witness :
    ("split" ∈ dfAB.columns ∧ TMP_SPLIT_COL ∉ dfAB.columns) ∧
    ((Splitter.fixed "split").split trivialBackend dfAB
      = (dfAB.setCol TMP_SPLIT_COL (dfAB.rows.map (fun r => valAt r.2 "split")),
         .ok (⟨dfAB.columns, dfAB.rows.filter (fun r => decide (valAt r.2 "split" = .pint 0))⟩,
              ⟨dfAB.columns, dfAB.rows.filter (fun r => decide (valAt r.2 "split" = .pint 1))⟩,
              ⟨dfAB.columns, dfAB.rows.filter (fun r => decide (valAt r.2 "split" = .pint 2))⟩))
    ∧ List.Perm
        (dfAB.rows.filter (fun r => decide (valAt r.2 "split" = .pint 0))
          ++ dfAB.rows.filter (fun r => decide (valAt r.2 "split" = .pint 1))
          ++ dfAB.rows.filter (fun r => decide (valAt r.2 "split" = .pint 2)))
        dfAB.rows) :=
  ⟨⟨by decide, by decide⟩,
   fixed_split_partition_roundtrip "split" dfAB trivialBackend
    (by decide) (by decide) (by decide) (by decide)⟩

lemma mem_uniqueAux {α : Type} [DecidableEq α] :
    ∀ (l seen : List α) (a : α), a ∈ uniqueAux l seen → a ∈ l
  | [], _, a, h => absurd h (List.not_mem_nil a)
  | x :: t, seen, a, h => by
    by_cases hx : x ∈ seen
    · simp only [uniqueAux, if_pos hx] at h
      exact List.mem_cons_of_mem _ (mem_uniqueAux t seen a h)
    · simp only [uniqueAux, if_neg hx] at h
      rcases List.mem_cons.mp h with rfl | h2
      · exact List.mem_cons_self _ _
      · exact List.mem_cons_of_mem _ (mem_uniqueAux t (seen ++ [x]) a h2)

lemma uniqueAux_filter_of_mem {α : Type} [DecidableEq α] (a : α) :
    ∀ (l seen : List α), a ∈ seen →
    uniqueAux l seen = uniqueAux (l.filter (fun b => decide (¬(b = a)))) seen
  | [], _, _ => rfl
  | x :: t, seen, ha => by
    by_cases hxa : x = a
    · subst hxa
      rw [List.filter_cons_of_neg (by simp)]
      simp only [uniqueAux, if_pos ha]
      exact uniqueAux_filter_of_mem x t seen ha
    · rw [List.filter_cons_of_pos (by simp [hxa])]
      by_cases hxs : x ∈ seen
      · simp only [uniqueAux, if_pos hxs]
        exact uniqueAux_filter_of_mem a t seen ha
      · simp only [uniqueAux, if_neg hxs]
        exact congrArg (x :: ·)
          (uniqueAux_filter_of_mem a t (seen ++ [x]) (List.mem_append_left _ ha))

lemma uniqueAux_seen_congr {α : Type} [DecidableEq α] :
    ∀ (l seen1 seen2 : List α), (∀ x ∈ l, x ∈ seen1 ↔ x ∈ seen2) →
    uniqueAux l seen1 = uniqueAux l seen2
  | [], _, _, _ => rfl
  | x :: t, s1, s2, h => by
    have hx := h x (List.mem_cons_self _ _)
    by_cases hx1 : x ∈ s1
    · simp only [uniqueAux, if_pos hx1, if_pos (hx.mp hx1)]
      exact uniqueAux_seen_congr t s1 s2
        (fun y hy => h y (List.mem_cons_of_mem _ hy))
    · have hx2 : x ∉ s2 := fun h2 => hx1 (hx.mpr h2)
      simp only [uniqueAux, if_neg hx1, if_neg hx2]
      refine congrArg (x :: ·) (uniqueAux_seen_congr t (s1 ++ [x]) (s2 ++ [x]) ?_)
      intro y hy
      simp only [List.mem_append]
      rw [h y (List.mem_cons_of_mem _ hy)]

lemma uniqueFirst_cons {α : Type} [DecidableEq α] (a : α) (l : List α) :
    uniqueFirst (a :: l) = a :: uniqueFirst (l.filter (fun b => decide (¬(b = a)))) := by
  unfold uniqueFirst
  simp only [uniqueAux, if_neg (List.not_mem_nil a), List.nil_append]
  refine congrArg (a :: ·) ?_
  rw [uniqueAux_filter_of_mem a l [a] (List.mem_singleton.mpr rfl)]
  refine uniqueAux_seen_congr _ _ _ ?_
  intro y hy
  have hne : y ≠ a := by
    rcases List.mem_filter.mp hy with ⟨-, hdec⟩
    simpa using hdec
  simp [hne]

lemma zipDraws_map_fst (g : Nat → Nat) :
    ∀ (is : List Nat) (off : Nat), (zipDraws g is off).map Prod.fst = is
  | [], _ => rfl
  | i :: is, off => by
    simp only [zipDraws, List.map_cons]
    exact congrArg (i :: ·) (zipDraws_map_fst g is (off + 1))

lemma buildWritesGo_map_fst (pairs : List (Nat × PVal)) (g : Nat → Nat) :
    ∀ (vs : List PVal) (off : Nat),
    (buildWritesGo pairs g vs off).map Prod.fst
      = (vs.map (fun v => groupIdx pairs v)).flatten
  | [], _ => rfl
  | v :: vs, off => by
    simp only [buildWritesGo, List.map_append, List.map_cons, List.flatten_cons,
      zipDraws_map_fst g, buildWritesGo_map_fst pairs g vs _]

lemma uniqueFirst_groups_perm {α β : Type} [DecidableEq β] (key : α → β)
    (l : List α) :
    List.Perm (((uniqueFirst (l.map key)).map
      (fun v => l.filter (fun x => decide (key x = v)))).flatten) l := by
  suffices H : ∀ (n : Nat) (l : List α), l.length ≤ n →
      List.Perm (((uniqueFirst (l.map key)).map
        (fun v => l.filter (fun x => decide (key x = v)))).flatten) l by
    exact H l.length l le_rfl
  intro n
  induction n with
  | zero =>
    intro l hl
    have hnil : l = [] := List.eq_nil_of_length_eq_zero (Nat.le_zero.mp hl)
    subst hnil
    simp [uniqueFirst, uniqueAux]
  | succ n ih =>
    intro l hl
    cases l with
    | nil => simp [uniqueFirst, uniqueAux]
    | cons x t =>
      rw [List.map_cons, uniqueFirst_cons]
      have hF1 : (t.map key).filter (fun b => decide (¬(b = key x)))
          = (t.filter (fun y => decide (¬(key y = key x)))).map key := by
        rw [List.filter_map]
        rfl
      rw [hF1, List.map_cons, List.flatten_cons,
        List.filter_cons_of_pos (by simp)]
      have hgroups : (uniqueFirst ((t.filter
            (fun y => decide (¬(key y = key x)))).map key)).map
            (fun v => (x :: t).filter (fun z => decide (key z = v)))
          = (uniqueFirst ((t.filter
            (fun y => decide (¬(key y = key x)))).map key)).map
            (fun v => (t.filter (fun y => decide (¬(key y = key x)))).filter
              (fun z => decide (key z = v))) := by
        refine List.map_congr_left ?_
        intro v hv
        have hvne : v ≠ key x := by
          have hvmem := mem_uniqueAux _ _ _ hv
          rcases List.mem_map.mp hvmem with ⟨y, hy, rfl⟩
          rcases List.mem_filter.mp hy with ⟨-, hdec⟩
          simpa using hdec
        rw [List.filter_cons_of_neg (by simp [Ne.symm hvne]), List.filter_filter]
        refine List.filter_congr ?_
        intro z hz
        by_cases hzv : key z = v
        · have hzx : ¬(key z = key x) := fun he => hvne (hzv ▸ he)
          simp [hzv, hzx, hvne]
        · simp [hzv]
      rw [hgroups]
      have hlen : (t.filter (fun y => decide (¬(key y = key x)))).length ≤ n :=
        le_trans (List.length_filter_le _ _) (Nat.le_of_succ_le_succ hl)
      have hIH := ih (t.filter (fun y => decide (¬(key y = key x)))) hlen
      rw [List.cons_append]
      refine List.Perm.cons x ?_
      refine (List.Perm.append_left _ hIH).trans ?_
      have hcompl : t.filter (fun y => decide (¬(key y = key x)))
          = t.filter (fun y => !(decide (key y = key x))) := by
        refine List.filter_congr ?_
        intro y hy
        simp [decide_not]
      rw [hcompl]
      exact List.filter_append_perm _ t

/-- The write targets of the stratify loop are a permutation of the index
labels: every row label is written exactly once. -/
lemma buildWrites_targets_perm (pairs : List (Nat × PVal)) (g : Nat → Nat) :
    List.Perm ((buildWrites pairs g).map Prod.fst) (pairs.map Prod.fst) := by
  rw [buildWrites, buildWritesGo_map_fst]
  have hflat : ((uniqueFirst (pairs.map Prod.snd)).map
      (fun v => groupIdx pairs v)).flatten
      = (((uniqueFirst (pairs.map Prod.snd)).map
        (fun v => pairs.filter (fun q => decide (q.2 = v)))).flatten).map Prod.fst := by
    rw [List.map_flatten, List.map_map]
    rfl
  rw [hflat]
  exact List.Perm.map Prod.fst (uniqueFirst_groups_perm Prod.snd pairs)

lemma npWrite_ok_of_forall :
    ∀ (ws : List (Nat × Nat)) (a : Array Nat), (∀ w ∈ ws, w.1 < a.size) →
    ∃ arr, npWrite a ws = .ok arr
  | [], a, _ => ⟨a, rfl⟩
  | w :: t, a, h => by
    have hw : w.1 < a.size := h w (List.mem_cons_self _ _)
    simp only [npWrite, dif_pos hw]
    refine npWrite_ok_of_forall t _ ?_
    intro q hq
    rw [Array.size_set]
    exact h q (List.mem_cons_of_mem _ hq)

lemma npWrite_error_of_exists :
    ∀ (ws : List (Nat × Nat)) (a : Array Nat), (∃ w ∈ ws, a.size ≤ w.1) →
    npWrite a ws = .error "IndexError: index out of bounds"
  | [], _, h => absurd h (by simp)
  | w :: t, a, h => by
    by_cases hw : w.1 < a.size
    · simp only [npWrite, dif_pos hw]
      refine npWrite_error_of_exists t _ ?_
      rcases h with ⟨q, hq, hsize⟩
      rcases List.mem_cons.mp hq with rfl | hq2
      · exact absurd hsize (not_le.mpr hw)
      · exact ⟨q, hq2, by rw [Array.size_set]; exact hsize⟩
    · simp only [npWrite, dif_neg hw]

/-- A one-row dataframe whose index label (5) is not the default
`RangeIndex` position, as arises after pandas row filtering. -/
def dfBadIdx : DataFrame := ⟨["A"], [(5, [("A", .pint 1)])]⟩

/-- C10: the stratify fold-assignment writes target exactly the dataframe's
index labels (each row's label written exactly once, so each row receives
its own drawn fold — third conjunct); under the default `RangeIndex`
0..n-1 every write is in bounds and the split succeeds (first conjunct),
while any index label `>= len(df)` makes the numpy fancy-index write raise
`IndexError` with the dataframe unmutated (second conjunct). -/
theorem stratify_index_bounds (c : String) (p : Probs) (b : Backend)
    (df : DataFrame) (hpart : b.partitioned = false) (hcol : c ∈ df.columns) :
    ((df.rows.map Prod.fst = List.range df.rows.length →
      ∃ folds, ((Splitter.stratify c p).split b df).2 = .ok folds)
    ∧ (∀ lab ∈ df.rows.map Prod.fst, df.rows.length ≤ lab →
        (Splitter.stratify c p).split b df
          = (df, .error "IndexError: index out of bounds")))
    ∧ List.Perm
        ((buildWrites ((df.rows.map Prod.fst).zip
            (df.rows.map (fun r => valAt r.2 c))) b.choice).map Prod.fst)
        (df.rows.map Prod.fst) := by
  have hseries : df.getColE c = .ok (df.rows.map (fun r => valAt r.2 c)) := by
    simp [DataFrame.getColE, hcol]
  have hfst : (((df.rows.map Prod.fst).zip
      (df.rows.map (fun r => valAt r.2 c))).map Prod.fst) = df.rows.map Prod.fst :=
    List.map_fst_zip _ _ (by simp)
  have hperm : List.Perm
      ((buildWrites ((df.rows.map Prod.fst).zip
          (df.rows.map (fun r => valAt r.2 c))) b.choice).map Prod.fst)
      (df.rows.map Prod.fst) := by
    have := buildWrites_targets_perm
      ((df.rows.map Prod.fst).zip (df.rows.map (fun r => valAt r.2 c))) b.choice
    rwa [hfst] at this
  refine ⟨⟨?_, ?_⟩, hperm⟩
  · intro hidx
    have hbound : ∀ w ∈ buildWrites ((df.rows.map Prod.fst).zip
        (df.rows.map (fun r => valAt r.2 c))) b.choice,
        w.1 < (Array.mkArray df.len 0).size := by
      intro w hw
      have h1 : w.1 ∈ (buildWrites ((df.rows.map Prod.fst).zip
          (df.rows.map (fun r => valAt r.2 c))) b.choice).map Prod.fst :=
        List.mem_map_of_mem _ hw
      have h2 : w.1 ∈ df.rows.map Prod.fst := hperm.mem_iff.mp h1
      rw [hidx] at h2
      simpa [DataFrame.len] using List.mem_range.mp h2
    obtain ⟨arr, harr⟩ := npWrite_ok_of_forall _ _ hbound
    refine ⟨(split_on_series df
      (arr.toList.map (fun k => PVal.pint (Int.ofNat k)))).2, ?_⟩
    simp only [Splitter.split, Splitter.splitStratify, hpart,
      Bool.false_eq_true, if_false, hseries, harr]
  · intro lab hlab hge
    have h1 : lab ∈ (buildWrites ((df.rows.map Prod.fst).zip
        (df.rows.map (fun r => valAt r.2 c))) b.choice).map Prod.fst :=
      hperm.mem_iff.mpr hlab
    obtain ⟨w, hw, hwfst⟩ := List.mem_map.mp h1
    have herr : npWrite (Array.mkArray df.len 0)
        (buildWrites ((df.rows.map Prod.fst).zip
          (df.rows.map (fun r => valAt r.2 c))) b.choice)
        = .error "IndexError: index out of bounds" := by
      refine npWrite_error_of_exists _ _ ⟨w, hw, ?_⟩
      rw [Array.size_mkArray, hwfst]
      exact hge
    simp only [Splitter.split, Splitter.splitStratify, hpart,
      Bool.false_eq_true, if_false, hseries, herr]

theorem stratify_index_bounds_witness :
    (trivialBackend.partitioned = false ∧ "A" ∈ dfAB.columns
      ∧ dfAB.rows.map Prod.fst = List.range dfAB.rows.length) ∧
    (∃ folds, ((Splitter.stratify "A" DEFAULT_PROBABILITIES).split
        trivialBackend dfAB).2 = .ok folds) ∧
    ((Splitter.stratify "A" DEFAULT_PROBABILITIES).split trivialBackend dfBadIdx
      = (dfBadIdx, .error "IndexError: index out of bounds")) :=
  ⟨⟨rfl, by decide, by decide⟩,
   (stratify_index_bounds "A" DEFAULT_PROBABILITIES trivialBackend dfAB rfl
      (by decide)).1.1 (by decide),
   (stratify_index_bounds "A" DEFAULT_PROBABILITIES trivialBackend dfBadIdx rfl
      (by decide)).1.2 5 (by decide) (by decide)⟩
